import Mathlib

/-!
Verification development for the trayscope repository.

The repository contains two parallel implementations of its core:

* a GLib-based variant, `trayscope/gamescope.py` (process supervision) and
  `trayscope/status_notifier.py` (tray D-Bus server), which is the variant
  wired up by `trayscope/main.py`;
* an asyncio/dbus-next variant, `trayscope/process.py` and `trayscope/tray.py`.

The definitions below are shallow embeddings of the relevant parts of these
files.  Python dictionaries with small integer keys are modelled as
association lists (`List (Int × _)`, insertion order preserved, lookup by
key), GLib signals and log lines as explicitly accumulated event lists, and
the single-threaded GLib main loop as an explicit list of scheduler actions
applied with `List.foldl`.  D-Bus item identifiers have signature "i", hence
`Int`.
-/

namespace Trayscope

/-- A D-Bus variant value as used for menu item properties
(`GLib.Variant("s", ...)`, `("b", ...)`, `("i", ...)`). -/
inductive PropVal where
  | s (v : String)
  | b (v : Bool)
  | i (v : Int)
deriving DecidableEq

/-- A menu item property dictionary (`dict[str, GLib.Variant]`). -/
abbrev Props := List (String × PropVal)

/-- Assignment to an existing key of a Python dict: the value is replaced in
place, insertion order is preserved.  All call sites in the sources assign to
keys that are already present. -/
def setAssoc {β : Type} (items : List (Int × β)) (k : Int) (v : β) :
    List (Int × β) :=
  items.map fun p => if p.1 = k then (k, v) else p

namespace Gamescope

/-!  Model of `trayscope/gamescope.py` (`GamescopeManager`).  -/

/-- The distinct messages passed to `GamescopeManager._log`.  The exact
f-string payloads (argument vector, exit code rendering) do not matter for
any claim, so each `self._log(...)` call site becomes one constructor;
captured child output lines keep their text. -/
inductive LogMsg where
  | alreadyRunning      -- "Gamescope is already running\n"
  | starting            -- "Starting: ...\n"
  | failedSpawn         -- "Failed to start gamescope: ...\n"
  | stopping            -- "Stopping gamescope...\n"
  | forceKilling        -- "Force killing gamescope...\n"
  | exited (code : Int) -- "Gamescope exited with code {code}\n"
  | willRestart         -- "Will restart in 1 second...\n"
  | autoRestarting      -- "Auto-restarting gamescope...\n"
  | line (text : String)  -- a line read from the child's merged output
deriving DecidableEq

/-- The GObject signals emitted by `GamescopeManager`. -/
inductive Sig where
  | started
  | stopped (exitCode : Int)
  | logOutput (msg : LogMsg)
deriving DecidableEq

/-- `GamescopeManager.LOG_BUFFER_SIZE`. -/
def LOG_BUFFER_SIZE : Nat := 1000

/-- `collections.deque(maxlen := c).append`: append on the right, evicting
the oldest (leftmost) entry once the capacity is reached. -/
def pushCap {α : Type} (c : Nat) (b : List α) (t : α) : List α :=
  if b.length < c then b ++ [t] else b.drop 1 ++ [t]

/-- The state of a `GamescopeManager` object, together with the externally
observable history needed by the claims: emitted signals, signals sent to
child processes, and the number of armed (never-removed) 3-second
force-kill timeouts.  Child processes are identified by a spawn counter. -/
structure St where
  process : Option Nat          -- `self._process` (child identity, None when nulled)
  stopping : Bool               -- `self._stopping`
  restartPending : Bool         -- `self._restart_source_id is not None`
  logBuf : List LogMsg          -- `self._log_buffer` (deque, maxlen 1000)
  sigs : List Sig               -- emitted GObject signals, in order
  sigterms : List Nat           -- children that received SIGTERM (stop())
  forceKills : List Nat         -- children that received `force_exit()`
  graceTimers : Nat             -- armed `GLib.timeout_add(3000, _force_kill)` sources
  nextPid : Nat                 -- next child identity
deriving DecidableEq

/-- `GamescopeManager.__init__`. -/
def init : St :=
  { process := none, stopping := false, restartPending := false,
    logBuf := [], sigs := [], sigterms := [], forceKills := [],
    graceTimers := 0, nextPid := 0 }

/-- `GamescopeManager._log`: append to the ring buffer and emit
`log-output`. -/
def log (m : LogMsg) (s : St) : St :=
  { s with logBuf := pushCap LOG_BUFFER_SIZE s.logBuf m,
           sigs := s.sigs ++ [Sig.logOutput m] }

/-- `GamescopeManager.is_running`: `self._process is not None`. -/
def isRunning (s : St) : Bool := s.process.isSome

/-- `GamescopeManager.start`.  `spawnOk` models whether
`launcher.spawnv(args)` succeeds or raises `GLib.Error`. -/
def start (spawnOk : Bool) (s : St) : St :=
  if isRunning s then log .alreadyRunning s
  else
    let s := { s with stopping := false }
    let s := log .starting s
    if spawnOk then
      let s := { s with process := some s.nextPid, nextPid := s.nextPid + 1 }
      { s with sigs := s.sigs ++ [Sig.started] }
    else
      let s := log .failedSpawn s
      { s with process := none }

/-- `GamescopeManager.stop`.  Note the source returns immediately when
`is_running()` is false; the restart-timer cancellation and the
`_stopping` flag are only reached while a child is present. -/
def stop (s : St) : St :=
  match s.process with
  | none => s
  | some pid =>
    let s := { s with stopping := true }
    let s := { s with restartPending := false }  -- GLib.source_remove, idempotent
    let s := log .stopping s
    let s := { s with sigterms := s.sigterms ++ [pid] }
    { s with graceTimers := s.graceTimers + 1 }

/-- Body of `GamescopeManager._force_kill`: force-kill whatever child is
current, if any. -/
def forceKillBody (s : St) : St :=
  match s.process with
  | some pid =>
    let s := log .forceKilling s
    { s with forceKills := s.forceKills ++ [pid] }
  | none => s

/-- One of the armed 3-second timeouts fires (the source returns `False`, so
the source is removed after firing; the source id is never stored, so the
timeout is never removed early). -/
def graceFire (s : St) : St :=
  if s.graceTimers = 0 then s
  else forceKillBody { s with graceTimers := s.graceTimers - 1 }

/-- `GamescopeManager._on_process_exit` (delivered by `wait_async` after the
current child exits).  `autoRestart` is `self.config.settings.auto_restart`. -/
def onExit (autoRestart : Bool) (code : Int) (s : St) : St :=
  let s := log (.exited code) s
  let s := { s with process := none }
  let s := { s with sigs := s.sigs ++ [Sig.stopped code] }
  if !s.stopping && autoRestart && code ≠ 0 then
    let s := log .willRestart s
    { s with restartPending := true }
  else s

/-- `GamescopeManager._do_restart` (the 1-second restart timeout fires; only
possible while the source is still armed). -/
def restartFire (spawnOk : Bool) (s : St) : St :=
  if s.restartPending then
    let s := { s with restartPending := false }
    if !s.stopping then start spawnOk (log .autoRestarting s) else s
  else s

/-- The events the single-threaded GLib main loop can deliver to the
manager: user-initiated `start()`/`stop()`, the `wait_async` exit callback,
the 1-second restart timeout, and a 3-second force-kill timeout. -/
inductive Act where
  | start (spawnOk : Bool)
  | stop
  | exit (code : Int)
  | restartTimer (spawnOk : Bool)
  | graceTimer
deriving DecidableEq

/-- Apply one main-loop event. -/
def stepA (autoRestart : Bool) (s : St) : Act → St
  | .start ok => start ok s
  | .stop => stop s
  | .exit c => onExit autoRestart c s
  | .restartTimer ok => restartFire ok s
  | .graceTimer => graceFire s

/-- Run a sequence of main-loop events. -/
def run (autoRestart : Bool) (s : St) (acts : List Act) : St :=
  acts.foldl (stepA autoRestart) s

/-- The `stopped` signals among an emitted-signal history. -/
def stoppedSigs (l : List Sig) : List Sig :=
  l.filter fun e =>
    match e with
    | .stopped _ => true
    | _ => false

/-- The `started` signals among an emitted-signal history. -/
def startedSigs (l : List Sig) : List Sig :=
  l.filter fun e =>
    match e with
    | .started => true
    | _ => false

end Gamescope

namespace SNI

/-!  Model of `trayscope/status_notifier.py` (`StatusNotifierItem`).  -/

/-- The menu callbacks of the GLib variant (`self._do_start`, ...). -/
inductive MenuAction where
  | start
  | stop
  | settings
  | logs
  | quit
deriving DecidableEq

/-- One value of the `self._menu_items` dict:
`id -> (label, callback, enabled)`.  A `None` callback is falsy in the
`if callback and enabled` test. -/
structure SniItem where
  label : String
  action : Option MenuAction
  enabled : Bool
deriving DecidableEq

/-- The `self._menu_items` dict built in `StatusNotifierItem.__init__`. -/
def initialItems : List (Int × SniItem) :=
  [ (1, ⟨"Start Gamescope", some .start, true⟩),
    (2, ⟨"Stop Gamescope", some .stop, false⟩),
    (3, ⟨"separator", none, true⟩),
    (4, ⟨"Settings...", some .settings, true⟩),
    (5, ⟨"View Logs...", some .logs, true⟩),
    (6, ⟨"separator", none, true⟩),
    (7, ⟨"Quit", some .quit, true⟩) ]

/-- `StatusNotifierItem._get_item_properties`. -/
def getItemProperties (items : List (Int × SniItem)) (itemId : Int) : Props :=
  match List.lookup itemId items with
  | none => []
  | some it =>
    if it.label = "separator" then [("type", PropVal.s "separator")]
    else [("label", PropVal.s it.label), ("enabled", PropVal.b it.enabled)]

/-- `sorted(self._menu_items.keys())`. -/
def menuKeys (items : List (Int × SniItem)) : List Int :=
  (items.map Prod.fst).insertionSort (· ≤ ·)

/-- A node of the `(ia{sv}av)` layout structure returned by `GetLayout`. -/
inductive LayoutNode where
  | node (nid : Int) (props : Props) (children : List LayoutNode)

/-- The id of a layout node. -/
def LayoutNode.nodeId : LayoutNode → Int
  | .node nid _ _ => nid

/-- The children of a layout node. -/
def LayoutNode.children : LayoutNode → List LayoutNode
  | .node _ _ cs => cs

/-- `StatusNotifierItem._build_layout`.  The Python function recurses from
the root (`parent_id == 0`) into every key of the item dict; `fuel` bounds
the recursion stack.  Since id 0 is reserved for the root and never occurs
as a dict key, every child call takes the non-recursive branch, so any
`fuel ≥ 2` computes the exact Python result. -/
def buildLayout : Nat → List (Int × SniItem) → Int → Int → LayoutNode
  | 0, _, parentId, _ => .node parentId [] []
  | fuel + 1, items, parentId, depth =>
    if parentId = 0 then
      .node 0 []
        ((menuKeys items).map fun i =>
          buildLayout fuel items i (if depth > 0 then depth - 1 else 0))
    else
      .node parentId (getItemProperties items parentId) []

/-- The D-Bus errors the menu handler can return
(`Gio.DBusError.UNKNOWN_METHOD` / `INVALID_ARGS`). -/
inductive DBusErr where
  | unknownMethod
  | invalidArgs
deriving DecidableEq

/-- The value passed to `invocation.return_value` by
`_handle_menu_method_call`. -/
inductive MenuReply where
  | layout (revision : Nat) (root : LayoutNode)
  | groupProps (entries : List (Int × Props))
  | prop (v : PropVal)
  | unitReply
  | aboutToShow (needUpdate : Bool)

/-- A call dispatched to `StatusNotifierItem._handle_menu_method_call`.
`Event`'s `data`/`timestamp` arguments are unused by the handler. -/
inductive MenuCall where
  | getLayout (parentId : Int) (depth : Int)
  | getGroupProperties (ids : List Int) (names : List String)
  | getProperty (itemId : Int) (name : String)
  | event (itemId : Int) (eventId : String)
  | aboutToShow (itemId : Int)
  | other (name : String)

/-- The result list built by the `GetGroupProperties` branch of
`_handle_menu_method_call`: one entry per requested id that is present in
the item dict (`if item_id in self._menu_items`). -/
def getGroupProps (items : List (Int × SniItem)) (ids : List Int) :
    List (Int × Props) :=
  ids.filterMap fun itemId =>
    if (List.lookup itemId items).isSome then
      some (itemId, getItemProperties items itemId)
    else none

/-- `StatusNotifierItem._handle_menu_method_call`: the reply (or D-Bus
error) together with the callback scheduled via `GLib.idle_add`, if any.
`fuel` bounds the `_build_layout` recursion as above; `revision` is
`self._menu_revision`. -/
def handleMenuMethodCall (fuel : Nat) (items : List (Int × SniItem))
    (revision : Nat) :
    MenuCall → Except DBusErr (MenuReply × Option MenuAction)
  | .getLayout parentId depth =>
    .ok (.layout revision (buildLayout fuel items parentId depth), none)
  | .getGroupProperties ids _names =>
    .ok (.groupProps (getGroupProps items ids), none)
  | .getProperty itemId name =>
    match List.lookup name (getItemProperties items itemId) with
    | some v => .ok (.prop v, none)
    | none => .error .invalidArgs
  | .event itemId eventId =>
    if eventId = "clicked" then
      match List.lookup itemId items with
      | some it =>
        if it.action.isSome && it.enabled then .ok (.unitReply, it.action)
        else .ok (.unitReply, none)
      | none => .ok (.unitReply, none)
    else .ok (.unitReply, none)
  | .aboutToShow _ => .ok (.aboutToShow false, none)
  | .other _ => .error .unknownMethod

/-- The mutable state of the GLib tray item relevant to status and menu
updates (`self._status`, `self._menu_items`, `self._menu_revision`). -/
structure ItemState where
  status : String
  items : List (Int × SniItem)
  revision : Nat
deriving DecidableEq

/-- The state after `__init__` (revision starts at 1, status `Passive`). -/
def initialState : ItemState :=
  { status := "Passive", items := initialItems, revision := 1 }

/-- The `status_map.get(status.lower(), 'Passive')` lookup in
`set_status`.  Lowercasing is written character-wise (the definition of
`String.toLower`) so that it evaluates inside the kernel. -/
def statusMap (status : String) : String :=
  let l := String.mk (status.data.map Char.toLower)
  if l = "passive" then "Passive"
  else if l = "active" then "Active"
  else if l = "needs-attention" then "NeedsAttention"
  else "Passive"

/-- `StatusNotifierItem.set_status`, returning the new state together with
the list of revisions carried by emitted `LayoutUpdated` signals
(`_emit_layout_updated` increments the revision, then emits it once; the
`NewStatus` signal is not tracked here). -/
def setStatus (status : String) (s : ItemState) : ItemState × List Nat :=
  let newStatus := statusMap status
  if newStatus ≠ s.status then
    let isRunning := newStatus == "Active"
    let items := setAssoc s.items 1 ⟨"Start Gamescope", some .start, !isRunning⟩
    let items := setAssoc items 2 ⟨"Stop Gamescope", some .stop, isRunning⟩
    ({ status := newStatus, items := items, revision := s.revision + 1 },
      [s.revision + 1])
  else (s, [])

end SNI

namespace Tray

/-!  Model of `trayscope/tray.py` (`StatusNotifierService` and
`DBusMenuInterface`).  -/

/-- The menu callbacks of the dbus-next variant: `self._do_start`,
`self._do_stop`, `self._do_quit`, and the closures
`lambda: self._set_resolution(w, h)`, `lambda: self._set_filter(f)`,
`self._toggle_hdr`, `self._toggle_vrr`. -/
inductive TrayAction where
  | start
  | stop
  | quit
  | setResolution (w h : Nat)
  | setFilter (f : String)
  | toggleHdr
  | toggleVrr
deriving DecidableEq

/-- The configuration fields read by `_rebuild_menu` and mutated by the
menu actions (`self._config.settings`; the `Config` class itself lives
outside the supervised core, only these fields matter here). -/
structure Settings where
  render_width : Nat
  render_height : Nat
  filter : String
  hdr_enabled : Bool
  adaptive_sync : Bool
deriving DecidableEq

/-- One value of the `self._menu_items` dict:
`id -> (label, callback, enabled, toggle_type, toggle_state, children)`. -/
structure TrayItem where
  label : String
  action : Option TrayAction
  enabled : Bool
  toggleType : Option String
  toggleState : Option Bool
  children : Option (List Int)
deriving DecidableEq

/-- The `mark` helper of `_rebuild_menu`: a radio glyph prefix. -/
def mark (label : String) (selected : Bool) : String :=
  if selected then "● " ++ label else "○ " ++ label

/-- The `check` helper of `_rebuild_menu`: a checkmark glyph prefix. -/
def checkLbl (label : String) (flag : Bool) : String :=
  if flag then "✓ " ++ label else "  " ++ label

/-- `cur_res`: the configured render resolution, with the fallback used
when no config has been attached. -/
def curRes (cfg : Option Settings) : Nat × Nat :=
  match cfg with
  | some s => (s.render_width, s.render_height)
  | none => (1920, 1080)

/-- `cur_filter` with its fallback. -/
def curFilter (cfg : Option Settings) : String :=
  match cfg with
  | some s => s.filter
  | none => "fsr"

/-- `hdr_on` with its fallback. -/
def curHdr (cfg : Option Settings) : Bool :=
  match cfg with
  | some s => s.hdr_enabled
  | none => false

/-- `vrr_on` with its fallback. -/
def curVrr (cfg : Option Settings) : Bool :=
  match cfg with
  | some s => s.adaptive_sync
  | none => false

/-- `StatusNotifierService._rebuild_menu`: the whole item dict is replaced
by a fresh one computed from the configuration snapshot. -/
def rebuildMenu (cfg : Option Settings) : List (Int × TrayItem) :=
  let res := curRes cfg
  let fil := curFilter cfg
  let hdr := curHdr cfg
  let vrr := curVrr cfg
  [ (1, ⟨"Start Gamescope", some .start, true, none, none, none⟩),
    (2, ⟨"Stop Gamescope", some .stop, false, none, none, none⟩),
    (3, ⟨"separator", none, true, none, none, none⟩),
    (10, ⟨"Resolution", none, true, none, none, some [11, 12, 13, 14]⟩),
    (11, ⟨mark "720p" (decide (res = (1280, 720))),
          some (.setResolution 1280 720), true, some "radio",
          some (decide (res = (1280, 720))), none⟩),
    (12, ⟨mark "1080p" (decide (res = (1920, 1080))),
          some (.setResolution 1920 1080), true, some "radio",
          some (decide (res = (1920, 1080))), none⟩),
    (13, ⟨mark "1440p" (decide (res = (2560, 1440))),
          some (.setResolution 2560 1440), true, some "radio",
          some (decide (res = (2560, 1440))), none⟩),
    (14, ⟨mark "4K" (decide (res = (3840, 2160))),
          some (.setResolution 3840 2160), true, some "radio",
          some (decide (res = (3840, 2160))), none⟩),
    (20, ⟨"Filter", none, true, none, none, some [21, 22, 23]⟩),
    (21, ⟨mark "FSR" (decide (fil = "fsr")), some (.setFilter "fsr"), true,
          some "radio", some (decide (fil = "fsr")), none⟩),
    (22, ⟨mark "Nearest" (decide (fil = "nearest")),
          some (.setFilter "nearest"), true, some "radio",
          some (decide (fil = "nearest")), none⟩),
    (23, ⟨mark "Linear" (decide (fil = "linear")),
          some (.setFilter "linear"), true, some "radio",
          some (decide (fil = "linear")), none⟩),
    (30, ⟨"separator", none, true, none, none, none⟩),
    (31, ⟨checkLbl "HDR" hdr, some .toggleHdr, true, some "checkmark",
          some hdr, none⟩),
    (32, ⟨checkLbl "VRR" vrr, some .toggleVrr, true, some "checkmark",
          some vrr, none⟩),
    (40, ⟨"separator", none, true, none, none, none⟩),
    (41, ⟨"Quit", some .quit, true, none, none, none⟩) ]

/-- `self._root_items` as assigned by `_rebuild_menu`. -/
def rootItems : List Int := [1, 2, 3, 10, 20, 30, 31, 32, 40, 41]

/-- `DBusMenuInterface._get_item_props`. -/
def getItemProps (items : List (Int × TrayItem)) (itemId : Int) : Props :=
  match List.lookup itemId items with
  | none => []
  | some it =>
    if it.label = "separator" then [("type", PropVal.s "separator")]
    else
      let props := [("label", PropVal.s it.label),
                    ("enabled", PropVal.b it.enabled),
                    ("visible", PropVal.b true)]
      let props :=
        match it.children with
        | some cs =>
          if cs.isEmpty then props
          else props ++ [("children-display", PropVal.s "submenu")]
        | none => props
      match it.toggleType with
      | some tt =>
        if tt = "" then props
        else props ++ [("toggle-type", PropVal.s tt),
          ("toggle-state", PropVal.i
            (match it.toggleState with
             | some true => 1
             | _ => 0))]
      | none => props

/-- `DBusMenuInterface.GetGroupProperties`: one entry is appended for every
requested id, with no membership check (`property_names` is ignored by the
source as well). -/
def getGroupProperties (items : List (Int × TrayItem)) (ids : List Int)
    (_names : List String) : List (Int × Props) :=
  ids.map fun itemId => (itemId, getItemProps items itemId)

/-- `StatusNotifierService._handle_click`: the callback that gets invoked,
if any. -/
def handleClick (items : List (Int × TrayItem)) (itemId : Int) :
    Option TrayAction :=
  match List.lookup itemId items with
  | some it => if it.action.isSome && it.enabled then it.action else none
  | none => none

/-- `DBusMenuInterface.Event`: only `"clicked"` events are routed to
`_handle_click`; the method returns normally in every case. -/
def eventAction (items : List (Int × TrayItem)) (itemId : Int)
    (eventId : String) : Option TrayAction :=
  if eventId = "clicked" then handleClick items itemId else none

/-- The state of the dbus-next tray service relevant to menu rebuilds:
the attached config (`self._config`), the item dict, the root id list and
the menu revision (`DBusMenuInterface._revision`, initially 1). -/
structure ServerState where
  cfg : Option Settings
  items : List (Int × TrayItem)
  roots : List Int
  revision : Nat
deriving DecidableEq

/-- The state right after `__init__` (which runs `_rebuild_menu` once with
no config attached; the revision starts at 1). -/
def initialServerState : ServerState :=
  { cfg := none, items := rebuildMenu none, roots := rootItems,
    revision := 1 }

/-- `DBusMenuInterface.notify_layout_update`: increment the revision and
emit one `LayoutUpdated` signal carrying it. -/
def notifyLayoutUpdate (s : ServerState) : ServerState × List Nat :=
  ({ s with revision := s.revision + 1 }, [s.revision + 1])

/-- The operations that rebuild the menu and bump the revision:
`set_status` and the four configuration actions. -/
inductive Op where
  | setStatus (status : String)
  | setResolution (w h : Nat)
  | setFilter (f : String)
  | toggleHdr
  | toggleVrr
deriving DecidableEq

/-- `StatusNotifierService.set_status`: overwrite items 1 and 2 in place,
then notify (`update_status`'s `NewStatus` signal is not tracked here). -/
def setStatus (status : String) (s : ServerState) : ServerState × List Nat :=
  let isRunning := status == "Active"
  let items := setAssoc s.items 1
    ⟨"Start Gamescope", some .start, !isRunning, none, none, none⟩
  let items := setAssoc items 2
    ⟨"Stop Gamescope", some .stop, isRunning, none, none, none⟩
  notifyLayoutUpdate { s with items := items }

/-- `StatusNotifierService._set_resolution`: a no-op without an attached
config; otherwise mutate the settings, rebuild the whole menu and notify
(`self._config.save()` is persistence outside the core). -/
def setResolution (w h : Nat) (s : ServerState) : ServerState × List Nat :=
  match s.cfg with
  | none => (s, [])
  | some c =>
    let c := { c with render_width := w, render_height := h }
    notifyLayoutUpdate
      { s with
          cfg := some c
          items := rebuildMenu (some c)
          roots := rootItems }

/-- `StatusNotifierService._set_filter`. -/
def setFilter (f : String) (s : ServerState) : ServerState × List Nat :=
  match s.cfg with
  | none => (s, [])
  | some c =>
    let c := { c with filter := f }
    notifyLayoutUpdate
      { s with
          cfg := some c
          items := rebuildMenu (some c)
          roots := rootItems }

/-- `StatusNotifierService._toggle_hdr`. -/
def toggleHdr (s : ServerState) : ServerState × List Nat :=
  match s.cfg with
  | none => (s, [])
  | some c =>
    let c := { c with hdr_enabled := !c.hdr_enabled }
    notifyLayoutUpdate
      { s with
          cfg := some c
          items := rebuildMenu (some c)
          roots := rootItems }

/-- `StatusNotifierService._toggle_vrr`. -/
def toggleVrr (s : ServerState) : ServerState × List Nat :=
  match s.cfg with
  | none => (s, [])
  | some c =>
    let c := { c with adaptive_sync := !c.adaptive_sync }
    notifyLayoutUpdate
      { s with
          cfg := some c
          items := rebuildMenu (some c)
          roots := rootItems }

/-- Dispatch one rebuild-and-notify operation. -/
def applyOp : Op → ServerState → ServerState × List Nat
  | .setStatus st => setStatus st
  | .setResolution w h => setResolution w h
  | .setFilter f => setFilter f
  | .toggleHdr => toggleHdr
  | .toggleVrr => toggleVrr

/-- Whether the menu item with the given id currently shows
`toggleState = true`. -/
def radioOn (items : List (Int × TrayItem)) (itemId : Int) : Bool :=
  match List.lookup itemId items with
  | some it =>
    match it.toggleState with
    | some b => b
    | none => false
  | none => false

/-- How many members of a radio group currently show
`toggleState = true`. -/
def radioOnCount (items : List (Int × TrayItem)) (group : List Int) : Nat :=
  (group.filter (radioOn items)).length

/-- The ids of the resolution radio group declared by `_rebuild_menu`. -/
def resGroup : List Int := [11, 12, 13, 14]

/-- The ids of the filter radio group declared by `_rebuild_menu`. -/
def filterGroup : List Int := [21, 22, 23]

end Tray

namespace Gamescope

/-- Appending one line to a buffer that is within capacity keeps it within
capacity. -/
theorem pushCap_length_le {α : Type} (c : Nat) (hc : 0 < c) (b : List α)
    (t : α) (hb : b.length ≤ c) : (pushCap c b t).length ≤ c := by
  unfold pushCap
  by_cases h : b.length < c
  · simp [h]
    omega
  · simp [h]
    have : b.length = c := by omega
    simp [List.length_drop]
    omega

/-- The buffer obtained by appending every element of `xs` (in order) to an
initially empty capacity-`c` ring is exactly the last `c` elements of `xs`,
in their original order. -/
theorem foldl_pushCap_eq_drop {α : Type} (c : Nat) (hc : 0 < c)
    (xs : List α) : xs.foldl (pushCap c) [] = xs.drop (xs.length - c) := by
  induction xs using List.reverseRecOn with
  | nil => simp
  | append_singleton xs x ih =>
    rw [List.foldl_append, List.foldl_cons, List.foldl_nil, ih]
    by_cases h : xs.length < c
    · have h0 : xs.length - c = 0 := by omega
      have h1 : xs.length + 1 - c = 0 := by omega
      simp [h0, h1, pushCap, h]
    · have hlen : (xs.drop (xs.length - c)).length = c := by
        simp [List.length_drop]
        omega
      have hnotlt : ¬ (xs.drop (xs.length - c)).length < c := by omega
      rw [pushCap, if_neg hnotlt, List.drop_drop]
      have harith : xs.length - c + 1 = xs.length + 1 - c := by omega
      have hle : xs.length + 1 - c ≤ xs.length := by omega
      rw [harith, List.length_append, List.length_singleton,
        List.drop_append_of_le_length hle]

end Gamescope

open Gamescope in
/-- C9: the log ring buffer (`deque(maxlen=1000)` fed by
`GamescopeManager._log`) never holds more than `LOG_BUFFER_SIZE = 1000`
lines, and after appending any sequence `xs` of lines to the initially
empty buffer it holds exactly the most recent 1000 of them (all of them, if
fewer) in their original order: the buffer equals
`xs.drop (xs.length - 1000)`, whose length is `min xs.length 1000`. -/
theorem C9_log_buffer_capacity (xs : List Gamescope.LogMsg) :
    (xs.foldl (pushCap LOG_BUFFER_SIZE) []) = xs.drop (xs.length - 1000) ∧
    (xs.foldl (pushCap LOG_BUFFER_SIZE) []).length ≤ 1000 ∧
    (xs.foldl (pushCap LOG_BUFFER_SIZE) []).length
      = min xs.length 1000 := by
  have h := foldl_pushCap_eq_drop LOG_BUFFER_SIZE (by decide) xs
  simp only [show LOG_BUFFER_SIZE = 1000 from rfl] at h ⊢
  refine ⟨h, ?_, ?_⟩
  · rw [h]
    simp [List.length_drop]
    omega
  · rw [h]
    simp [List.length_drop]
    omega

open Gamescope in
/-- C1: the claim says a `stop()` issued while the auto-restart timer is
pending cancels it, so that no restart happens after a user-initiated stop.
In `gamescope.py` this fails: a restart timer is only pending after the
child has exited (`self._process is None`), so `stop()` returns at its
`if not self.is_running()` guard before reaching the cancellation code and
before setting `_stopping`.  Concretely, with auto-restart enabled: after
`start(); exit(2); stop()` the restart timer is still pending, and when it
fires, `_do_restart` starts a new child (a second `started` signal). -/
theorem C1_pending_restart_survives_stop :
    (run true init [.start true, .exit 2]).restartPending = true ∧
    (run true init [.start true, .exit 2, .stop]) =
      (run true init [.start true, .exit 2]) ∧
    (run true init [.start true, .exit 2, .stop, .restartTimer true]).process
      = some 1 ∧
    (startedSigs
      (run true init [.start true, .exit 2, .stop, .restartTimer true]).sigs).length
      = 2 := by
  refine ⟨rfl, ?_, rfl, rfl⟩
  decide

open Gamescope in
/-- C2: the claim says that once the child targeted by `stop()` has exited,
the 3-second grace timer never delivers a forceful kill, in particular not
to a later-started child.  In `gamescope.py` the `GLib.timeout_add(3000,
self._force_kill)` source armed by `stop()` is never removed, and
`_force_kill` only checks `self._process is not None`.  Concretely: child 0
is stopped (receives SIGTERM) and exits; a new child 1 is started before the
3 seconds elapse; the stale grace timer then fires and force-kills child 1. -/
theorem C2_grace_timer_kills_later_child :
    (run false init [.start true, .stop, .exit 0, .start true]).sigterms
      = [0] ∧
    (run false init [.start true, .stop, .exit 0, .start true]).forceKills
      = [] ∧
    (run false init [.start true, .stop, .exit 0, .start true]).process
      = some 1 ∧
    (run false init
        [.start true, .stop, .exit 0, .start true, .graceTimer]).forceKills
      = [1] := by
  exact ⟨rfl, rfl, rfl, rfl⟩

open Gamescope in
/-- C3: the claim says a failed spawn is logged, leaves the supervisor Idle
and usable, and delivers a `stopped(-1)` notification.  In `gamescope.py`
the `except GLib.Error` branch of `start()` logs the failure and nulls
`self._process`, but never emits `stopped`; no signal at all reaches the
subscriber (the asyncio variant `process.py` does call `on_stopped(-1)`
there).  The remaining parts hold: the failure is logged, the manager is
Idle, and a subsequent `start()` succeeds. -/
theorem C3_spawn_failure_emits_no_stopped_signal :
    (run false init [.start false]).process = none ∧
    Sig.logOutput .failedSpawn ∈ (run false init [.start false]).sigs ∧
    stoppedSigs (run false init [.start false]).sigs = [] ∧
    startedSigs (run false init [.start false]).sigs = [] ∧
    (run false init [.start false, .start true]).process = some 0 ∧
    startedSigs (run false init [.start false, .start true]).sigs
      = [Sig.started] := by
  refine ⟨rfl, ?_, rfl, rfl, rfl, rfl⟩
  decide

/-- C6: the claim says `GetLayout(parentId, 0)` returns a subtree with no
children.  In `status_notifier.py`, `_build_layout` ignores the depth
argument at the root: for `parent_id == 0` it unconditionally builds a
child node for every menu key (the `depth - 1 if depth > 0 else 0`
computation only limits the recursion below the root).  On the initial
seven-item menu, `GetLayout(0, 0)` therefore returns the root with all
seven children, ids 1..7 (the dbus-next variant `tray.py` honours
`if depth != 0`). -/
theorem C6_depth_zero_returns_children :
    (SNI.buildLayout 8 SNI.initialItems 0 0).children.length = 7 ∧
    ((SNI.buildLayout 8 SNI.initialItems 0 0).children.map
        SNI.LayoutNode.nodeId) = [1, 2, 3, 4, 5, 6, 7] := by
  exact ⟨rfl, rfl⟩

/-- C5 counterexample: the claim says that after every rebuild, exactly one
member of the resolution radio group has `toggleState = true`.  The
configuration stores arbitrary render dimensions (the settings dialog
accepts any width in 640..7680 and height in 480..4320), and
`_rebuild_menu` sets each radio's state by comparing against the four
fixed presets, so a custom resolution such as 800×600 leaves all four
resolution radios off. -/
theorem C5_counterexample_custom_resolution :
    Tray.radioOnCount
      (Tray.rebuildMenu (some ⟨800, 600, "fsr", false, false⟩))
      Tray.resGroup = 0 := by
  rfl

/-- C7 counterexample: the claim says `GetGroupProperties` returns an entry
only for ids present in the model.  `DBusMenuInterface.GetGroupProperties`
in `tray.py` appends an entry for every requested id without a membership
check; an absent id such as 99 yields the entry `(99, {})` instead of
being omitted. -/
theorem C7_counterexample_absent_id_entry :
    List.lookup 99 (Tray.rebuildMenu none) = none ∧
    Tray.getGroupProperties (Tray.rebuildMenu none) [99] [] = [(99, [])] := by
  exact ⟨rfl, rfl⟩

/-- C10: `_build_layout` in `status_notifier.py` is total over item ids:
for every non-zero id that is not a key of the menu dict (and any depth),
it takes the non-root branch, `_get_item_properties` returns the empty
dict for the unknown id, and the resulting node is `(id, {}, [])` — no
protocol error is signalled. -/
theorem C10_get_layout_total_unknown_id (fuel : Nat)
    (items : List (Int × SNI.SniItem)) (itemId : Int) (depth : Int)
    (hnz : itemId ≠ 0) (habs : List.lookup itemId items = none) :
    SNI.buildLayout (fuel + 1) items itemId depth
      = SNI.LayoutNode.node itemId [] [] := by
  unfold SNI.buildLayout
  rw [if_neg hnz]
  unfold SNI.getItemProperties
  rw [habs]

/-- Witness for C10 at a concrete input: id 99 is not in the initial menu
and is non-zero, and `GetLayout(99, -1)` yields the bare node
`(99, {}, [])`. -/
theorem C10_witness_unknown_id :
    SNI.buildLayout 5 SNI.initialItems 99 (-1)
      = SNI.LayoutNode.node 99 [] [] :=
  C10_get_layout_total_unknown_id 4 SNI.initialItems 99 (-1)
    (by decide) (by rfl)

/-- C8: in both variants a menu `Event` call invokes an item callback
exactly when the event kind is `"clicked"` and the id resolves to an item
that is enabled and has a callback; in every other case (unknown id,
disabled item, item without callback, other event kind) nothing is
invoked, and the call completes without error (the GLib handler replies
`.ok` with `return_value(None)` on every such path; the dbus-next `Event`
method returns normally). -/
theorem C8_event_action_characterization
    (fuel revision : Nat) (sitems : List (Int × SNI.SniItem))
    (titems : List (Int × Tray.TrayItem)) (itemId : Int)
    (eventId : String) :
    SNI.handleMenuMethodCall fuel sitems revision (.event itemId eventId)
      = .ok (.unitReply,
          if eventId = "clicked" then
            match List.lookup itemId sitems with
            | some it =>
              if it.enabled = true ∧ it.action ≠ none then it.action
              else none
            | none => none
          else none) ∧
    Tray.eventAction titems itemId eventId
      = (if eventId = "clicked" then
          match List.lookup itemId titems with
          | some it =>
            if it.enabled = true ∧ it.action ≠ none then it.action
            else none
          | none => none
        else none) := by
  constructor
  · show (if eventId = "clicked" then _ else _) = _
    by_cases hev : eventId = "clicked"
    · rw [if_pos hev, if_pos hev]
      cases h : List.lookup itemId sitems with
      | none => rfl
      | some it =>
        cases ha : it.action with
        | none => simp [ha]
        | some a =>
          cases he : it.enabled <;> simp [ha, he]
    · rw [if_neg hev, if_neg hev]
  · unfold Tray.eventAction Tray.handleClick
    by_cases hev : eventId = "clicked"
    · rw [if_pos hev, if_pos hev]
      cases h : List.lookup itemId titems with
      | none => rfl
      | some it =>
        cases ha : it.action with
        | none => simp [ha]
        | some a =>
          cases he : it.enabled <;> simp [ha, he]
    · rw [if_neg hev, if_neg hev]

/-- C4: in both tray servers, every rebuild operation (a `set_status` or,
in the dbus-next variant, one of the four configuration actions) keeps the
revision monotone (it is never reset), emits at most one `LayoutUpdated`
signal which always carries the new revision and always corresponds to a
revision increment of exactly 1, and whenever the operation changes the
item tree (structure or any displayed property) it emits exactly that one
`LayoutUpdated` with revision incremented by exactly 1. -/
theorem C4_revision_monotone_single_signal
    (op : Tray.Op) (s : Tray.ServerState) (status : String)
    (t : SNI.ItemState) :
    (s.revision ≤ (Tray.applyOp op s).1.revision ∧
      ((Tray.applyOp op s).2 = [] ∨
        ((Tray.applyOp op s).2 = [(Tray.applyOp op s).1.revision] ∧
          (Tray.applyOp op s).1.revision = s.revision + 1)) ∧
      ((Tray.applyOp op s).1.items ≠ s.items →
        (Tray.applyOp op s).2 = [(Tray.applyOp op s).1.revision] ∧
          (Tray.applyOp op s).1.revision = s.revision + 1)) ∧
    (t.revision ≤ (SNI.setStatus status t).1.revision ∧
      ((SNI.setStatus status t).2 = [] ∨
        ((SNI.setStatus status t).2 = [(SNI.setStatus status t).1.revision] ∧
          (SNI.setStatus status t).1.revision = t.revision + 1)) ∧
      ((SNI.setStatus status t).1.items ≠ t.items →
        (SNI.setStatus status t).2 = [(SNI.setStatus status t).1.revision] ∧
          (SNI.setStatus status t).1.revision = t.revision + 1)) := by
  constructor
  · cases op with
    | setStatus st =>
      exact ⟨Nat.le_succ _, Or.inr ⟨rfl, rfl⟩, fun _ => ⟨rfl, rfl⟩⟩
    | setResolution w h =>
      cases hc : s.cfg with
      | none =>
        refine ⟨?_, ?_, ?_⟩ <;>
          simp [Tray.applyOp, Tray.setResolution, hc]
      | some c =>
        refine ⟨?_, ?_, ?_⟩ <;>
          simp [Tray.applyOp, Tray.setResolution, hc, Tray.notifyLayoutUpdate]
    | setFilter f =>
      cases hc : s.cfg with
      | none =>
        refine ⟨?_, ?_, ?_⟩ <;>
          simp [Tray.applyOp, Tray.setFilter, hc]
      | some c =>
        refine ⟨?_, ?_, ?_⟩ <;>
          simp [Tray.applyOp, Tray.setFilter, hc, Tray.notifyLayoutUpdate]
    | toggleHdr =>
      cases hc : s.cfg with
      | none =>
        refine ⟨?_, ?_, ?_⟩ <;>
          simp [Tray.applyOp, Tray.toggleHdr, hc]
      | some c =>
        refine ⟨?_, ?_, ?_⟩ <;>
          simp [Tray.applyOp, Tray.toggleHdr, hc, Tray.notifyLayoutUpdate]
    | toggleVrr =>
      cases hc : s.cfg with
      | none =>
        refine ⟨?_, ?_, ?_⟩ <;>
          simp [Tray.applyOp, Tray.toggleVrr, hc]
      | some c =>
        refine ⟨?_, ?_, ?_⟩ <;>
          simp [Tray.applyOp, Tray.toggleVrr, hc, Tray.notifyLayoutUpdate]
  · by_cases hs : SNI.statusMap status ≠ t.status
    · refine ⟨?_, ?_, ?_⟩ <;> simp [SNI.setStatus, hs]
    · refine ⟨?_, ?_, ?_⟩ <;> simp [SNI.setStatus, hs]

/-- Witness for C4 at concrete inputs: from the freshly initialised states,
`set_status("Active")` (dbus-next) and `set_status('active')` (GLib) both
change the item tree, and the theorem then yields the single emitted
`LayoutUpdated` carrying the incremented revision. -/
theorem C4_witness_layout_signal :
    (Tray.applyOp (.setStatus "Active") Tray.initialServerState).2
      = [(Tray.applyOp (.setStatus "Active") Tray.initialServerState).1.revision] ∧
    (SNI.setStatus "active" SNI.initialState).2
      = [(SNI.setStatus "active" SNI.initialState).1.revision] := by
  have h := C4_revision_monotone_single_signal (.setStatus "Active")
    Tray.initialServerState "active" SNI.initialState
  exact ⟨(h.1.2.2 (by decide)).1, (h.2.2.2 (by decide)).1⟩

/-- C7 (amended): `GetGroupProperties` never signals an error in either
variant, and ids absent from the model never cause one.  The GLib handler
(`status_notifier.py`) omits absent ids: every entry of its result stems
from a requested id that is present in the item dict, and the dispatch
replies `.ok`.  The dbus-next method (`tray.py`) instead returns one entry
per requested id, in order, where an absent id carries an empty property
map. -/
theorem C7_group_properties_amended
    (sitems : List (Int × SNI.SniItem))
    (titems : List (Int × Tray.TrayItem)) (ids : List Int)
    (names : List String) (itemId : Int) :
    (∀ entry ∈ SNI.getGroupProps sitems ids,
      entry.1 ∈ ids ∧ (List.lookup entry.1 sitems).isSome = true) ∧
    (SNI.handleMenuMethodCall 1 sitems 0 (.getGroupProperties ids names)
      = .ok (.groupProps (SNI.getGroupProps sitems ids), none)) ∧
    ((Tray.getGroupProperties titems ids names).map Prod.fst = ids) ∧
    (List.lookup itemId titems = none →
      Tray.getItemProps titems itemId = []) := by
  refine ⟨?_, rfl, ?_, ?_⟩
  · intro entry hmem
    rcases List.mem_filterMap.mp hmem with ⟨a, ha, hfa⟩
    by_cases hp : (List.lookup a sitems).isSome = true
    · rw [if_pos hp] at hfa
      cases hfa
      exact ⟨ha, hp⟩
    · rw [if_neg hp] at hfa
      cases hfa
  · simp [Tray.getGroupProperties, Function.comp_def]
  · intro habs
    unfold Tray.getItemProps
    rw [habs]

/-- Witness for C7 (amended) at concrete inputs: requesting ids `[2, 99]`
against the initial menus, the GLib result only contains present ids while
the dbus-next result keeps both ids, id 99 (absent) carrying the empty
property map. -/
theorem C7_witness_group_properties :
    Tray.getItemProps (Tray.rebuildMenu none) 99 = [] ∧
    (Tray.getGroupProperties (Tray.rebuildMenu none) [2, 99] []).map
      Prod.fst = [2, 99] ∧
    ((2 : Int) ∈ ([2, 99] : List Int) ∧
      (List.lookup (2 : Int) SNI.initialItems).isSome = true) := by
  have h := C7_group_properties_amended SNI.initialItems
    (Tray.rebuildMenu none) [2, 99] [] 99
  refine ⟨h.2.2.2 (by rfl), h.2.2.1, ?_⟩
  exact h.1 (2, SNI.getItemProperties SNI.initialItems 2) (by decide)

/-- C5 (amended): after every rebuild, each radio member's `toggleState` is
true exactly when its choice equals the corresponding configuration value.
Hence within each radio group at most one member is on, and exactly one is
on precisely when the configured value is among the group's choices: one
of the four resolution presets for the resolution group, one of
fsr/nearest/linear for the filter group.  (A custom resolution — which the
settings dialog allows — therefore leaves the resolution group with zero
members on; see the counterexample.) -/
theorem C5_radio_groups_amended (cfg : Option Tray.Settings) :
    Tray.radioOn (Tray.rebuildMenu cfg) 11
      = decide (Tray.curRes cfg = (1280, 720)) ∧
    Tray.radioOn (Tray.rebuildMenu cfg) 12
      = decide (Tray.curRes cfg = (1920, 1080)) ∧
    Tray.radioOn (Tray.rebuildMenu cfg) 13
      = decide (Tray.curRes cfg = (2560, 1440)) ∧
    Tray.radioOn (Tray.rebuildMenu cfg) 14
      = decide (Tray.curRes cfg = (3840, 2160)) ∧
    Tray.radioOn (Tray.rebuildMenu cfg) 21
      = decide (Tray.curFilter cfg = "fsr") ∧
    Tray.radioOn (Tray.rebuildMenu cfg) 22
      = decide (Tray.curFilter cfg = "nearest") ∧
    Tray.radioOn (Tray.rebuildMenu cfg) 23
      = decide (Tray.curFilter cfg = "linear") ∧
    Tray.radioOnCount (Tray.rebuildMenu cfg) Tray.resGroup
      = (if Tray.curRes cfg = (1280, 720) ∨ Tray.curRes cfg = (1920, 1080) ∨
            Tray.curRes cfg = (2560, 1440) ∨ Tray.curRes cfg = (3840, 2160)
         then 1 else 0) ∧
    Tray.radioOnCount (Tray.rebuildMenu cfg) Tray.filterGroup
      = (if Tray.curFilter cfg = "fsr" ∨ Tray.curFilter cfg = "nearest" ∨
            Tray.curFilter cfg = "linear"
         then 1 else 0) := by
  have e11 : Tray.radioOn (Tray.rebuildMenu cfg) 11
      = decide (Tray.curRes cfg = (1280, 720)) := rfl
  have e12 : Tray.radioOn (Tray.rebuildMenu cfg) 12
      = decide (Tray.curRes cfg = (1920, 1080)) := rfl
  have e13 : Tray.radioOn (Tray.rebuildMenu cfg) 13
      = decide (Tray.curRes cfg = (2560, 1440)) := rfl
  have e14 : Tray.radioOn (Tray.rebuildMenu cfg) 14
      = decide (Tray.curRes cfg = (3840, 2160)) := rfl
  have e21 : Tray.radioOn (Tray.rebuildMenu cfg) 21
      = decide (Tray.curFilter cfg = "fsr") := rfl
  have e22 : Tray.radioOn (Tray.rebuildMenu cfg) 22
      = decide (Tray.curFilter cfg = "nearest") := rfl
  have e23 : Tray.radioOn (Tray.rebuildMenu cfg) 23
      = decide (Tray.curFilter cfg = "linear") := rfl
  refine ⟨e11, e12, e13, e14, e21, e22, e23, ?_, ?_⟩
  · rw [Tray.radioOnCount, Tray.resGroup]
    simp only [List.filter_cons, List.filter_nil, e11, e12, e13, e14]
    by_cases h1 : Tray.curRes cfg = (1280, 720) <;>
      by_cases h2 : Tray.curRes cfg = (1920, 1080) <;>
      by_cases h3 : Tray.curRes cfg = (2560, 1440) <;>
      by_cases h4 : Tray.curRes cfg = (3840, 2160) <;>
      simp_all
  · rw [Tray.radioOnCount, Tray.filterGroup]
    simp only [List.filter_cons, List.filter_nil, e21, e22, e23]
    by_cases h1 : Tray.curFilter cfg = "fsr" <;>
      by_cases h2 : Tray.curFilter cfg = "nearest" <;>
      by_cases h3 : Tray.curFilter cfg = "linear" <;>
      simp_all

end Trayscope
